import Mathlib

/-!
# Verification of the MongoDB query server request handler

Shallow embedding of `src/main.rs` of `tbo/rust-mongodb-queryserver`.

The per-request logic lives in `QueryService::call` (main.rs lines 40-77)
and its helpers `get_query_params` (79-84), `get_failure_response` (86-88),
`to_bson_document` (90-99) and `get_number_or` (101-108).

External collaborators (the serde_json parser, the BSON document printer
`Bson::Document(d).to_string()`, and the database `collection.find`) are
modelled as components of an `Env` record: the handler is a pure function
of the environment and the request.  `url::form_urlencoded::parse` output
is modelled as the list of already percent-decoded key/value pairs carried
by the request; the collection of that iterator into a `HashMap` (where a
later insert overwrites an earlier one) is embedded as `collectParams`.

JSON numbers are modelled as `Int`.  `serde_json` stores a non-negative
integer literal as `PosInt(u64)` and serializes it through `serialize_u64`,
a negative one as `NegInt(i64)` through `serialize_i64`; the bson 0.x crate
pinned by the source (`bson::ordered::OrderedDocument`, prototype mongodb
driver; no Cargo manifest in the tree, so default features) rejects every
unsigned value with `UnsupportedUnsignedType`.  The sign of the modelled
integer therefore decides convertibility.  JSON float literals, which
convert to `Bson::FloatingPoint` without error, are outside the model: no
claim depends on them, and they behave like the other always-convertible
scalars.
-/

/-- serde_json `Value`. -/
inductive Json where
  | null : Json
  | bool (b : Bool) : Json
  | num (n : Int) : Json
  | str (s : String) : Json
  | arr (xs : List Json) : Json
  | obj (fields : List (String × Json)) : Json

/-- `bson::Bson`. -/
inductive Bson where
  | null : Bson
  | bool (b : Bool) : Bson
  | num (n : Int) : Bson
  | str (s : String) : Bson
  | arr (xs : List Bson) : Bson
  | doc (fields : List (String × Bson)) : Bson

/-- `bson::ordered::OrderedDocument`. -/
abbrev Doc := List (String × Bson)

mutual

/-- `bson::to_bson` applied to a `serde_json::Value`, under bson 0.x with
default features.  Null, booleans, strings and negative integers convert;
a non-negative integer is serialized by serde_json through `serialize_u64`,
which the bson 0.x encoder rejects (`UnsupportedUnsignedType`); arrays and
objects convert element by element in order, the first failure propagating. -/
def toBson : Json → Except Unit Bson
  | .null => .ok .null
  | .bool b => .ok (.bool b)
  | .num n => if n < 0 then .ok (.num n) else .error ()
  | .str s => .ok (.str s)
  | .arr xs =>
    match toBsonList xs with
    | .error e => .error e
    | .ok ys => .ok (.arr ys)
  | .obj fs =>
    match toBsonFields fs with
    | .error e => .error e
    | .ok ys => .ok (.doc ys)
termination_by j => sizeOf j

def toBsonList : List Json → Except Unit (List Bson)
  | [] => .ok []
  | x :: xs =>
    match toBson x with
    | .error e => .error e
    | .ok y =>
      match toBsonList xs with
      | .error e => .error e
      | .ok ys => .ok (y :: ys)
termination_by l => sizeOf l

def toBsonFields : List (String × Json) → Except Unit (List (String × Bson))
  | [] => .ok []
  | (k, v) :: fs =>
    match toBson v with
    | .error e => .error e
    | .ok y =>
      match toBsonFields fs with
      | .error e => .error e
      | .ok ys => .ok ((k, y) :: ys)
termination_by l => sizeOf l

end

/-- `bson::Bson::as_document`: `Some` exactly on the document variant. -/
def Bson.asDocument : Bson → Option Doc
  | .doc d => some d
  | _ => none

/-- main.rs 90-99, `to_bson_document`.  `parseJson` stands for
`serde_json::from_str` (`none` = parse error); both a parse error and a
`bson::to_bson` error are propagated by the two `?` operators.  Note the
control flow: when the conversion succeeds but the value is not a
document, the `if let` falls through to the final `Ok(None)`. -/
def to_bson_document (parseJson : String → Option Json) :
    Option String → Except Unit (Option Doc)
  | some query_string =>
    match parseJson query_string with
    | none => .error ()
    | some json =>
      match toBson json with
      | .error e => .error e
      | .ok bson_value =>
        match bson_value.asDocument with
        | some bson_document => .ok (some bson_document)
        | none => .ok none
  | none => .ok none

/-- Rust `str::parse::<i64>`: optional `+`/`-` sign, one or more ASCII
digits, nothing else, and the value must fit in a signed 64-bit integer. -/
def parseI64 (s : String) : Option Int :=
  let (sign, digits) : Int × List Char :=
    match s.data with
    | '+' :: rest => (1, rest)
    | '-' :: rest => (-1, rest)
    | l => (1, l)
  if digits = [] then none
  else if digits.all Char.isDigit then
    let n : Nat := digits.foldl (fun a c => a * 10 + (c.toNat - '0'.toNat)) 0
    let v : Int := sign * n
    if -(2 ^ 63) ≤ v ∧ v ≤ 2 ^ 63 - 1 then some v else none
  else none

/-- main.rs 101-108, `get_number_or`: a present-and-parseable value wins,
anything else (absent, or unparseable) silently gives the default. -/
def get_number_or (query_option : Option String) (default : Option Int) :
    Option Int :=
  match query_option with
  | some limit_string =>
    match parseI64 limit_string with
    | some limit => some limit
    | none => default
  | none => default

/-- main.rs 79-84, `get_query_params`: the decoded pairs are collected into a
`HashMap<String, String>`, so each insert overwrites the previous binding of
its key.  The resulting single-valued map is embedded as a lookup function. -/
def collectParams (pairs : List (String × String)) : String → Option String :=
  pairs.foldl (fun m kv => fun q => if q = kv.1 then some kv.2 else m q)
    (fun _ => none)

/-- The subset of `mongodb::coll::options::FindOptions` written by the
handler; `FindOptions::new()` leaves every field unset. -/
structure FindOptions where
  limit : Option Int := none
  skip : Option Int := none
  sort : Option Doc := none

/-- The character class `[[:alpha:]_-]` of the path regex (ASCII letters,
underscore, hyphen). -/
def isCollChar (c : Char) : Bool :=
  c.isAlpha || c = '_' || c = '-'

/-- main.rs 44-48: matching the path against `^/([[:alpha:]_-]*)/?$` and
extracting capture group 1.  The class excludes `/`, so the greedy group is
the maximal run of class characters after the mandatory leading slash, and
the match succeeds exactly when what follows that run is empty or a single
trailing slash. -/
def routePath (p : String) : Option String :=
  match p.data with
  | '/' :: rest =>
    match rest.dropWhile isCollChar with
    | [] => some (String.mk (rest.takeWhile isCollChar))
    | ['/'] => some (String.mk (rest.takeWhile isCollChar))
    | _ => none
  | _ => none

/-- A database error together with whatever diagnostic payload the driver
attached to it. -/
inductive DbErr where
  | mk (info : String) : DbErr
deriving DecidableEq, Repr

/-- A cursor is iterated to a sequence of items, each a `Result<Document>`
(main.rs 64: `result.map(|item| ...)`). -/
abbrev Cursor := List (Except DbErr Doc)

/-- The external collaborators of the handler. -/
structure Env where
  /-- `serde_json::from_str`; `none` is a parse error. -/
  parseJson : String → Option Json
  /-- `bson::Bson::Document(d).to_string()`. -/
  serializeDoc : Doc → String
  /-- `db.collection(name).find(filter, Some(opts))`. -/
  find : String → Option Doc → FindOptions → Except DbErr Cursor

/-- The hyper `Request` as the handler reads it: method, path, and the
percent-decoded query-string pairs (in query-string order). -/
structure Request where
  method : String
  path : String
  queryPairs : List (String × String)

/-- hyper `Response` as the handler constructs it: `Response::new()` is
status 200 with no headers and empty body; the handler optionally sets a
status, a `ContentLength` header, and a body. -/
structure Response where
  status : Nat
  contentLength : Option Nat
  body : String
deriving DecidableEq, Repr

/-- main.rs 86-88, `get_failure_response`: only the status is set; no
`ContentLength` header and an empty body. -/
def get_failure_response (code : Nat) : Response :=
  { status := code, contentLength := none, body := "" }

/-- The outcome of one invocation of `QueryService::call`: an HTTP response,
or a panic (the `item.unwrap()` on main.rs 65 aborts the handler when a
cursor item is an error). -/
inductive HandlerResult where
  | ok (r : Response) : HandlerResult
  | panicked : HandlerResult
deriving DecidableEq, Repr

/-- main.rs 64-66: `result.map(|item| item.unwrap()).collect`, where
`unwrap` panics on the first error item. -/
def unwrapAll : Cursor → Option (List Doc)
  | [] => some []
  | .ok d :: rest => (unwrapAll rest).map (fun ds => d :: ds)
  | .error _ :: _ => none

/-- main.rs 51-61: building `FindOptions` and the filter document from the
parameter map, with the source's early `BadRequest` returns mapped to
`Except.error`.  Field order follows the source: limit, skip, then the
strict `sort` check, then the strict `query` check. -/
def translateParams (parseJson : String → Option Json)
    (params : String → Option String) :
    Except Unit (Option Doc × FindOptions) :=
  let opts : FindOptions :=
    { limit := get_number_or (params "limit") (some 20)
      skip := get_number_or (params "skip") none }
  match to_bson_document parseJson (params "sort") with
  | .error e => .error e
  | .ok v =>
    let opts := { opts with sort := v }
    match to_bson_document parseJson (params "query") with
    | .error e => .error e
    | .ok query => .ok (query, opts)

/-- main.rs 67-72: the success response, with the serialized documents
joined by commas inside one pair of brackets, the `ContentLength` header set
to the byte length (`output.len()`) of the body, and the default status
(200) left in place. -/
def successResponse (env : Env) (items : List Doc) : Response :=
  let documents := items.map env.serializeDoc
  let output := "[" ++ String.intercalate "," documents ++ "]"
  { status := 200, contentLength := some output.utf8ByteSize, body := output }

/-- main.rs 40-77, `QueryService::call`. -/
def call (env : Env) (req : Request) : HandlerResult :=
  if req.method ≠ "GET" then
    .ok (get_failure_response 404)
  else
    match routePath req.path with
    | none => .ok (get_failure_response 400)
    | some collection =>
      match translateParams env.parseJson (collectParams req.queryPairs) with
      | .error _ => .ok (get_failure_response 400)
      | .ok (query, opts) =>
        match env.find collection query opts with
        | .error _ => .ok (get_failure_response 500)
        | .ok result =>
          match unwrapAll result with
          | none => .panicked
          | some items => .ok (successResponse env items)

/-! ## Test fixtures

Concrete instantiations of the external collaborators, used by the closed
witness and counterexample theorems.  `testParse` agrees with
`serde_json::from_str` on the inputs at which it is evaluated. -/

/-- `serde_json::from_str` restricted to the handful of strings the closed
theorems use; every other string is a parse error (as `serde_json` would
reject those used below). -/
def testParse : String → Option Json := fun s =>
  if s = "[1]" then some (.arr [.num 1])
  else if s = "\x7b\x7d" then some (.obj [])
  else if s = "true" then some (.bool true)
  else none

/-- A database whose every find call succeeds with an empty cursor. -/
def emptyFind : String → Option Doc → FindOptions → Except DbErr Cursor :=
  fun _ _ _ => .ok []

/-- A fixed document serializer. -/
def testSerialize : Doc → String := fun _ => "doc"

/-- Environment with an always-empty result set. -/
def envBasic : Env :=
  { parseJson := testParse, serializeDoc := testSerialize, find := emptyFind }

/-- Environment whose database errors out exactly when a filter document is
passed: a 200 response under this environment proves the handler sent no
filter to the database. -/
def envFilterProbe : Env :=
  { parseJson := testParse
    serializeDoc := testSerialize
    find := fun _ q _ =>
      match q with
      | none => .ok []
      | some _ => .error (.mk "a filter document reached the database") }

/-! ## Helper lemmas -/

theorem takeWhile_append_of_all {α} {p : α → Bool} (l t : List α)
    (h : ∀ c ∈ l, p c = true) :
    (l ++ t).takeWhile p = l ++ t.takeWhile p := by
  induction l with
  | nil => simp
  | cons a l ih =>
    have ha : p a = true := h a (by simp)
    simp only [List.cons_append, List.takeWhile_cons_of_pos ha]
    rw [ih (fun c hc => h c (by simp [hc]))]

theorem dropWhile_append_of_all {α} {p : α → Bool} (l t : List α)
    (h : ∀ c ∈ l, p c = true) :
    (l ++ t).dropWhile p = t.dropWhile p := by
  induction l with
  | nil => simp
  | cons a l ih =>
    have ha : p a = true := h a (by simp)
    simp only [List.cons_append, List.dropWhile_cons_of_pos ha]
    exact ih (fun c hc => h c (by simp [hc]))

theorem unwrapAll_isSome_iff (c : Cursor) :
    (∃ ds, unwrapAll c = some ds) ↔ ∀ item ∈ c, item.isOk = true := by
  induction c with
  | nil => simp [unwrapAll]
  | cons item rest ih =>
    cases item with
    | ok d =>
      simp only [unwrapAll, List.mem_cons]
      constructor
      · rintro ⟨ds, hds⟩ x hx
        rcases hx with rfl | hx
        · rfl
        · rcases Option.map_eq_some'.mp hds with ⟨ds₀, hds₀, -⟩
          exact ih.mp ⟨ds₀, hds₀⟩ x hx
      · intro h
        rcases ih.mpr (fun x hx => h x (Or.inr hx)) with ⟨ds₀, hds₀⟩
        exact ⟨d :: ds₀, by simp [hds₀]⟩
    | error e =>
      simp [unwrapAll, Except.isOk, Except.toBool]

theorem get_number_or_eq (o : Option String) (d : Option Int) :
    get_number_or o d = (o.bind parseI64).or d := by
  cases o with
  | none => rfl
  | some s =>
    cases h : parseI64 s <;> simp [get_number_or, h]

theorem foldl_insert_lookup (pairs : List (String × String))
    (m : String → Option String) (k : String) :
    pairs.foldl (fun m kv => fun q => if q = kv.1 then some kv.2 else m q) m k
      = ((pairs.reverse.find? (fun kv => kv.1 == k)).map Prod.snd).or (m k) := by
  induction pairs generalizing m with
  | nil => simp
  | cons kv rest ih =>
    simp only [List.foldl_cons, List.reverse_cons, List.find?_append]
    rw [ih]
    cases hf : rest.reverse.find? (fun kv => kv.1 == k) with
    | some kv₀ => simp
    | none =>
      simp only [Option.map_none, Option.none_or, Option.or]
      by_cases hk : k = kv.1
      · subst hk
        simp [List.find?_cons]
      · simp [List.find?_cons, hk, Ne.symm hk, Option.or]

theorem find?_filter_of_imp {α} (l : List α) (p q : α → Bool)
    (h : ∀ a, p a = true → q a = true) :
    (l.filter q).find? p = l.find? p := by
  induction l with
  | nil => rfl
  | cons a l ih =>
    by_cases hq : q a = true
    · by_cases hp : p a = true
      · simp [List.filter_cons, hq, List.find?_cons, hp]
      · simp only [Bool.not_eq_true] at hp
        simp [List.filter_cons, hq, List.find?_cons, hp, ih]
    · simp only [Bool.not_eq_true] at hq
      have hp : p a = false := by
        cases hpa : p a
        · rfl
        · exact absurd (h a hpa) (by simp [hq])
      simp [List.filter_cons, hq, List.find?_cons, hp, ih]

/-- Every invocation of the handler either panics, or yields one of the
three header-less failure responses, or yields the success response built
from some list of decoded documents. -/
theorem call_shape (env : Env) (req : Request) :
    call env req = .panicked ∨
    call env req = .ok (get_failure_response 404) ∨
    call env req = .ok (get_failure_response 400) ∨
    call env req = .ok (get_failure_response 500) ∨
    ∃ items, call env req = .ok (successResponse env items) := by
  unfold call
  split
  · exact .inr (.inl rfl)
  split
  · exact .inr (.inr (.inl rfl))
  split
  · exact .inr (.inr (.inl rfl))
  split
  · exact .inr (.inr (.inr (.inl rfl)))
  split
  · exact .inl rfl
  · exact .inr (.inr (.inr (.inr ⟨_, rfl⟩)))

/-! ## C1: non-object JSON in query/sort -/

/-- C1 counterexample.  The claim says every syntactically valid but
non-object `query`/`sort` value makes translation fail with status 400.
For a non-object whose BSON conversion succeeds — here the JSON boolean
`true` — `to_bson_document` falls through to `Ok(None)` and the request
succeeds: under `envFilterProbe`, whose database errors out whenever any
filter document is passed, the response is 200 with body `[]`, so the
value was silently treated as an absent filter, not rejected. -/
theorem c1_non_object_is_not_rejected :
    to_bson_document testParse (some "true") = .ok none ∧
    call envFilterProbe
        { method := "GET", path := "/c", queryPairs := [("query", "true")] }
      = .ok { status := 200, contentLength := some 2, body := "[]" } := by
  constructor
  · simp [to_bson_document, testParse, toBson, Bson.asDocument]
  · simp [call, translateParams, to_bson_document, testParse, envFilterProbe,
      collectParams, get_number_or, toBson, Bson.asDocument, successResponse]
    decide

/-- C1 (amended): for a request whose `query` or `sort` parameter is
syntactically valid JSON but not a JSON object, the outcome depends on the
BSON conversion of the parsed value: when `bson::to_bson` succeeds
(booleans, strings, null, negative integers, and arrays of such) the value
is silently treated as an absent filter/sort — translation succeeds with
`Ok(None)` and no 400 arises from the shape check; when the conversion
fails (any non-negative integer in the value, serialized unsigned by
serde_json and rejected by bson 0.x) the translation fails as the original
claim says. -/
theorem c1_non_object_silently_dropped (pj : String → Option Json)
    (s : String) (j : Json) (hparse : pj s = some j) :
    (∀ b, toBson j = .ok b → b.asDocument = none →
      to_bson_document pj (some s) = .ok none) ∧
    (toBson j = .error () → to_bson_document pj (some s) = .error ()) := by
  constructor
  · intro b hconv hshape
    simp [to_bson_document, hparse, hconv, hshape]
  · intro hconv
    simp [to_bson_document, hparse, hconv]

theorem c1_non_object_silently_dropped_witness :
    (∀ b, toBson (Json.bool true) = .ok b → b.asDocument = none →
      to_bson_document testParse (some "true") = .ok none) ∧
    (toBson (Json.bool true) = .error () →
      to_bson_document testParse (some "true") = .error ()) :=
  c1_non_object_silently_dropped testParse "true" (Json.bool true) rfl

/-! ## C2: content-length header -/

/-- C2 counterexample.  The claim says every response (including every error
response with an empty body) carries a content-length equal to the byte
length of its body.  But `get_failure_response` only sets the status: here a
non-GET request yields a 404 response with empty body and NO content-length
header at all. -/
theorem c2_error_has_no_content_length :
    call envBasic { method := "POST", path := "/c", queryPairs := [] }
      = .ok (get_failure_response 404) ∧
    (get_failure_response 404).contentLength = none ∧
    (get_failure_response 404).body = "" := by
  refine ⟨by decide, rfl, rfl⟩

/-- C2 (amended): a 200 response carries a content-length equal to the exact
byte length of its body; the error responses (400/404/500) are constructed
with an empty body and no content-length header (any such header on the wire
is added by the HTTP library, not by this code). -/
theorem c2_content_length (env : Env) (req : Request) (r : Response)
    (h : call env req = .ok r) :
    (r.status = 200 → r.contentLength = some r.body.utf8ByteSize) ∧
    (r.status ≠ 200 → r.contentLength = none ∧ r.body = "") := by
  rcases call_shape env req with hs | hs | hs | hs | ⟨items, hs⟩ <;> rw [h] at hs
  · simp at hs
  · injection hs with h₁
    subst h₁
    exact ⟨fun h₂ => by simp [get_failure_response] at h₂, fun _ => ⟨rfl, rfl⟩⟩
  · injection hs with h₁
    subst h₁
    exact ⟨fun h₂ => by simp [get_failure_response] at h₂, fun _ => ⟨rfl, rfl⟩⟩
  · injection hs with h₁
    subst h₁
    exact ⟨fun h₂ => by simp [get_failure_response] at h₂, fun _ => ⟨rfl, rfl⟩⟩
  · injection hs with h₁
    subst h₁
    exact ⟨fun _ => rfl, fun h₂ => absurd rfl h₂⟩

theorem c2_content_length_witness :
    ((get_failure_response 404).status = 200 →
      (get_failure_response 404).contentLength
        = some (get_failure_response 404).body.utf8ByteSize) ∧
    ((get_failure_response 404).status ≠ 200 →
      (get_failure_response 404).contentLength = none ∧
      (get_failure_response 404).body = "") :=
  c2_content_length envBasic { method := "POST", path := "/c", queryPairs := [] }
    (get_failure_response 404) (by decide)

/-! ## C3: path routing -/

theorem routePath_cons (rest : List Char) :
    routePath (String.mk ('/' :: rest))
      = match rest.dropWhile isCollChar with
        | [] => some (String.mk (rest.takeWhile isCollChar))
        | ['/'] => some (String.mk (rest.takeWhile isCollChar))
        | _ => none := rfl

theorem slash_cons (n : String) : "/" ++ n = String.mk ('/' :: n.data) :=
  String.ext (by simp)

theorem slash_cons_slash (n : String) :
    "/" ++ n ++ "/" = String.mk ('/' :: (n.data ++ ['/'])) :=
  String.ext (by simp)

theorem c3_fwd (p n : String) (h : routePath p = some n) :
    (p = "/" ++ n ∨ p = "/" ++ n ++ "/") ∧ n.data.all isCollChar := by
  unfold routePath at h
  split at h
  next rest heq =>
    have hsplit := List.takeWhile_append_dropWhile (p := isCollChar) (l := rest)
    split at h
    next hdw =>
      injection h with h₁
      subst h₁
      rw [hdw, List.append_nil] at hsplit
      refine ⟨Or.inl (String.ext ?_), List.all_takeWhile ..⟩
      rw [slash_cons, heq]
      simp [hsplit]
    next hdw =>
      injection h with h₁
      subst h₁
      rw [hdw] at hsplit
      refine ⟨Or.inr (String.ext ?_), List.all_takeWhile ..⟩
      rw [slash_cons_slash, heq]
      simp [hsplit]
    next =>
      simp at h
  next =>
    simp at h

theorem c3_bwd (p n : String)
    (h : (p = "/" ++ n ∨ p = "/" ++ n ++ "/") ∧ n.data.all isCollChar) :
    routePath p = some n := by
  obtain ⟨hp | hp, hall⟩ := h
  · subst hp
    rw [slash_cons, routePath_cons]
    rw [List.dropWhile_eq_nil_iff.mpr (by simpa [List.all_eq_true] using hall)]
    rw [List.takeWhile_eq_self_iff.mpr (by simpa [List.all_eq_true] using hall)]
  · subst hp
    rw [slash_cons_slash, routePath_cons]
    rw [dropWhile_append_of_all _ _ (by simpa [List.all_eq_true] using hall)]
    rw [takeWhile_append_of_all _ _ (by simpa [List.all_eq_true] using hall)]
    simp [isCollChar, List.dropWhile, List.takeWhile]

/-- Strip one optional leading slash. -/
def stripLeadingSlash : List Char → List Char
  | '/' :: rest => rest
  | l => l

/-- Modelled from the spec: claim C3's path pattern read literally —
"an optional leading slash, then zero or more characters from [A-Za-z_-],
then an optional trailing slash, and nothing else".  Because the character
class excludes the slash, a string matches that pattern exactly when, after
removing at most one leading and at most one trailing slash, only class
characters remain. -/
def specPathAccepts (p : String) : Bool :=
  ((stripLeadingSlash (stripLeadingSlash p.data).reverse).reverse).all isCollChar

/-- C3 counterexample.  The claim (and spec §4.1) makes the leading slash
optional, so the path `widgets` should be accepted with collection name
`widgets`.  The code's regex `^/([[:alpha:]_-]*)/?$` makes the leading
slash mandatory: the router rejects `widgets` and the request is answered
400. -/
theorem c3_leading_slash_is_mandatory :
    specPathAccepts "widgets" = true ∧
    routePath "widgets" = none ∧
    call envBasic { method := "GET", path := "widgets", queryPairs := [] }
      = .ok (get_failure_response 400) := by
  refine ⟨by decide, by decide, by decide⟩

/-- C3 (amended): the router accepts a GET path exactly when it consists of
a MANDATORY leading slash, then zero or more characters from [A-Za-z_-],
then an optional trailing slash, extracting that exact (possibly empty)
character run as the collection name; every other path yields a 400
response with no further processing (for every environment, i.e. without
consulting the parser or the database). -/
theorem c3_router_characterization (p n : String) :
    (routePath p = some n ↔
      ((p = "/" ++ n ∨ p = "/" ++ n ++ "/") ∧ n.data.all isCollChar)) ∧
    (routePath p = none →
      ∀ env ps, call env { method := "GET", path := p, queryPairs := ps }
        = .ok (get_failure_response 400)) := by
  refine ⟨Iff.intro (c3_fwd p n) (c3_bwd p n), ?_⟩
  intro hr env ps
  unfold call
  simp [hr]

theorem c3_router_characterization_witness :
    ((routePath "/a_b-/" = some "a_b-" ↔
      (("/a_b-/" = "/" ++ "a_b-" ∨ "/a_b-/" = "/" ++ "a_b-" ++ "/") ∧
        ("a_b-" : String).data.all isCollChar)) ∧
    (routePath "/a_b-/" = none →
      ∀ env ps, call env { method := "GET", path := "/a_b-/", queryPairs := ps }
        = .ok (get_failure_response 400))) :=
  c3_router_characterization "/a_b-/" "a_b-"

/-! ## C4: lenient numeric parameters -/

theorem get_number_or_some_default (o : Option String) (d : Int) :
    get_number_or o (some d) = some ((o.bind parseI64).getD d) := by
  cases o with
  | none => rfl
  | some s => cases h : parseI64 s <;> simp [get_number_or, h]

theorem get_number_or_none_default (o : Option String) :
    get_number_or o none = o.bind parseI64 := by
  cases o with
  | none => rfl
  | some s => cases h : parseI64 s <;> simp [get_number_or, h]

/-- C4: whenever translation succeeds, the limit option is the parsed value
of the `limit` parameter when it parses as a signed 64-bit base-10 integer,
and exactly 20 otherwise (absent or unparseable); the skip option follows
the same rule with default "no skip" (`none`).  Moreover translation
succeeds exactly when the `sort` and `query` parameters convert, so the
numeric parameters can never cause an error response. -/
theorem c4_numeric_leniency (pj : String → Option Json)
    (params : String → Option String) :
    (∀ q opts, translateParams pj params = .ok (q, opts) →
      opts.limit = some (((params "limit").bind parseI64).getD 20) ∧
      opts.skip = (params "skip").bind parseI64) ∧
    ((∃ r, translateParams pj params = .ok r) ↔
      (∃ v, to_bson_document pj (params "sort") = .ok v) ∧
      (∃ v, to_bson_document pj (params "query") = .ok v)) := by
  constructor
  · intro q opts h
    unfold translateParams at h
    split at h
    · simp at h
    split at h
    · simp at h
    · injection h with h₁
      injection h₁ with h₂ h₃
      subst h₃
      exact ⟨by simp [get_number_or_some_default], by simp [get_number_or_none_default]⟩
  · cases hs : to_bson_document pj (params "sort") with
    | error e =>
      simp [translateParams, hs]
    | ok v =>
      cases hq : to_bson_document pj (params "query") with
      | error e => simp [translateParams, hs, hq]
      | ok w => simp [translateParams, hs, hq]

theorem c4_numeric_leniency_witness :
    ((∀ q opts,
      translateParams testParse
          (collectParams [("limit", "abc"), ("skip", "3")]) = .ok (q, opts) →
      opts.limit = some
        (((collectParams [("limit", "abc"), ("skip", "3")] "limit").bind
            parseI64).getD 20) ∧
      opts.skip
        = (collectParams [("limit", "abc"), ("skip", "3")] "skip").bind
            parseI64) ∧
    ((∃ r, translateParams testParse
        (collectParams [("limit", "abc"), ("skip", "3")]) = .ok r) ↔
      (∃ v, to_bson_document testParse
          (collectParams [("limit", "abc"), ("skip", "3")] "sort") = .ok v) ∧
      (∃ v, to_bson_document testParse
          (collectParams [("limit", "abc"), ("skip", "3")] "query") = .ok v))) :=
  c4_numeric_leniency testParse (collectParams [("limit", "abc"), ("skip", "3")])

/-! ## C5: invalid JSON gives 400 before any database access -/

theorem to_bson_document_error_of_bad (pj : String → Option Json)
    (s : String)
    (hbad : pj s = none ∨ ∃ j, pj s = some j ∧ toBson j = .error ()) :
    to_bson_document pj (some s) = .error () := by
  rcases hbad with h | ⟨j, hj, hconv⟩
  · simp [to_bson_document, h]
  · simp [to_bson_document, hj, hconv]

theorem translateParams_error_of_bad_json (pj : String → Option Json)
    (params : String → Option String) (s : String)
    (hp : params "sort" = some s ∨ params "query" = some s)
    (hbad : pj s = none ∨ ∃ j, pj s = some j ∧ toBson j = .error ()) :
    translateParams pj params = .error () := by
  have herr := to_bson_document_error_of_bad pj s hbad
  rcases hp with hp | hp
  · have hsort : to_bson_document pj (params "sort") = .error () := by
      rw [hp, herr]
    simp [translateParams, hsort]
  · have hq : to_bson_document pj (params "query") = .error () := by
      rw [hp, herr]
    cases hs : to_bson_document pj (params "sort") with
    | error e => cases e; simp [translateParams, hs]
    | ok v => simp [translateParams, hs, hq]

/-- C5: when the `query` or the `sort` parameter fails JSON parsing, or
parses but fails the BSON document conversion (`bson::to_bson` errors, as
on any non-negative integer under bson 0.x), the response is 400 with an
empty body (and no content-length header), and no database query is
issued: the conclusion holds for EVERY find function `f`, so nothing about
the database can influence it, and the bad parameter is never ignored in
favour of the rest of the request. -/
theorem c5_invalid_json_gives_400 (pj : String → Option Json)
    (ser : Doc → String)
    (f : String → Option Doc → FindOptions → Except DbErr Cursor)
    (req : Request) (c s : String)
    (hm : req.method = "GET")
    (hr : routePath req.path = some c)
    (hp : collectParams req.queryPairs "sort" = some s ∨
          collectParams req.queryPairs "query" = some s)
    (hbad : pj s = none ∨ ∃ j, pj s = some j ∧ toBson j = .error ()) :
    call { parseJson := pj, serializeDoc := ser, find := f } req
      = .ok { status := 400, contentLength := none, body := "" } := by
  unfold call
  rw [if_neg (by simp [hm])]
  simp only [hr, translateParams_error_of_bad_json pj _ s hp hbad]
  rfl

theorem c5_invalid_json_gives_400_witness :
    call { parseJson := testParse, serializeDoc := testSerialize,
           find := emptyFind }
        { method := "GET", path := "/c", queryPairs := [("query", "[1]")] }
      = .ok { status := 400, contentLength := none, body := "" } :=
  c5_invalid_json_gives_400 testParse testSerialize emptyFind
    { method := "GET", path := "/c", queryPairs := [("query", "[1]")] }
    "c" "[1]" rfl (by decide) (Or.inr (by decide))
    (Or.inr ⟨Json.arr [Json.num 1], rfl, by simp [toBson, toBsonList]⟩)

/-! ## C6: database failure gives 500, leaking nothing -/

/-- C6: when routing and translation succeed and the database find call
fails, the response is 500 with an empty body and no content-length header.
The right-hand side is one constant response, the same for every error
value `e`, so no information from the underlying error reaches the client
beyond the status class. -/
theorem c6_db_error_gives_500 (pj : String → Option Json)
    (ser : Doc → String) (e : DbErr) (req : Request) (c : String)
    (q : Option Doc) (opts : FindOptions)
    (hm : req.method = "GET")
    (hr : routePath req.path = some c)
    (ht : translateParams pj (collectParams req.queryPairs) = .ok (q, opts)) :
    call { parseJson := pj, serializeDoc := ser,
           find := fun _ _ _ => .error e } req
      = .ok { status := 500, contentLength := none, body := "" } := by
  unfold call
  rw [if_neg (by simp [hm])]
  simp only [hr, ht]
  rfl

theorem c6_db_error_gives_500_witness :
    call { parseJson := testParse, serializeDoc := testSerialize,
           find := fun _ _ _ => .error (.mk "socket closed") }
        { method := "GET", path := "/c", queryPairs := [] }
      = .ok { status := 500, contentLength := none, body := "" } :=
  c6_db_error_gives_500 testParse testSerialize (.mk "socket closed")
    { method := "GET", path := "/c", queryPairs := [] } "c" none
    { limit := some 20, skip := none, sort := none }
    rfl (by decide) rfl

/-! ## C7: success body shape -/

/-- Environment whose database returns one cursor item that decodes to the
empty document. -/
def envOneDoc : Env :=
  { parseJson := testParse
    serializeDoc := testSerialize
    find := fun _ _ _ => .ok [Except.ok []] }

/-- Inversion of a 200 outcome: it can only arise from a successful find
whose cursor items all decode, and the response is the success response
built from exactly those decoded documents. -/
theorem call_ok_200_inv (env : Env) (req : Request) (r : Response)
    (h : call env req = .ok r) (h200 : r.status = 200) :
    ∃ c q opts result items,
      env.find c q opts = .ok result ∧
      unwrapAll result = some items ∧
      r = successResponse env items := by
  unfold call at h
  split at h
  · injection h with h₁; subst h₁; simp [get_failure_response] at h200
  split at h
  · injection h with h₁; subst h₁; simp [get_failure_response] at h200
  split at h
  · injection h with h₁; subst h₁; simp [get_failure_response] at h200
  split at h
  · injection h with h₁; subst h₁; simp [get_failure_response] at h200
  split at h
  · simp at h
  · injection h with h₁
    subst h₁
    exact ⟨_, _, _, _, _, by assumption, by assumption, rfl⟩

/-- C7: for every 200 response produced when the database returned the
cursor `cursor`, the body is the documents decoded from that very cursor,
serialized and joined with commas inside exactly one pair of square
brackets — never truncated — and when the cursor yields no documents the
body is exactly the two-character string `[]`. -/
theorem c7_success_body_is_json_array (env : Env) (req : Request)
    (cursor : Cursor) (r : Response)
    (hfind : env.find = fun _ _ _ => .ok cursor)
    (h : call env req = .ok r) (h200 : r.status = 200) :
    (∃ items, unwrapAll cursor = some items ∧
      r.body = "[" ++ String.intercalate "," (items.map env.serializeDoc) ++ "]") ∧
    (cursor = [] → r.body = "[]") := by
  obtain ⟨c, q, opts, result, items, hf, hu, hr⟩ := call_ok_200_inv env req r h h200
  rw [hfind] at hf
  simp only [Except.ok.injEq] at hf
  subst hf
  constructor
  · exact ⟨items, hu, by rw [hr]; simp [successResponse]⟩
  · intro hc
    subst hc
    simp only [unwrapAll] at hu
    injection hu with hu₁
    rw [hr, ← hu₁]
    rfl

theorem c7_success_body_is_json_array_witness :
    (∃ items, unwrapAll [Except.ok ([] : Doc)] = some items ∧
      (Response.mk 200 (some 5) "[doc]").body
        = "[" ++ String.intercalate "," (items.map envOneDoc.serializeDoc) ++ "]") ∧
    (([Except.ok ([] : Doc)] : Cursor) = [] →
      (Response.mk 200 (some 5) "[doc]").body = "[]") :=
  c7_success_body_is_json_array envOneDoc
    { method := "GET", path := "/c", queryPairs := [] }
    [Except.ok ([] : Doc)] (Response.mk 200 (some 5) "[doc]")
    rfl (by decide) rfl

/-! ## C8: cursor decode failure panics -/

/-- C8: once the find call has succeeded with a cursor, the handler
produces a 200 response whenever every cursor item decodes (the unwrap
cannot fire), and panics — producing no HTTP response at all — whenever
some cursor item fails to decode. -/
theorem c8_cursor_decode (pj : String → Option Json) (ser : Doc → String)
    (cursor : Cursor) (req : Request) (c : String)
    (hm : req.method = "GET")
    (hr : routePath req.path = some c)
    (ht : ∃ r, translateParams pj (collectParams req.queryPairs) = .ok r) :
    ((∀ item ∈ cursor, item.isOk = true) →
      ∃ resp, call { parseJson := pj, serializeDoc := ser,
                     find := fun _ _ _ => .ok cursor } req = .ok resp ∧
        resp.status = 200) ∧
    ((∃ item ∈ cursor, item.isOk = false) →
      call { parseJson := pj, serializeDoc := ser,
             find := fun _ _ _ => .ok cursor } req = .panicked) := by
  obtain ⟨⟨q, opts⟩, ht⟩ := ht
  constructor
  · intro hall
    obtain ⟨ds, hds⟩ := (unwrapAll_isSome_iff cursor).mpr hall
    refine ⟨successResponse
      { parseJson := pj, serializeDoc := ser,
        find := fun _ _ _ => .ok cursor } ds, ?_, rfl⟩
    unfold call
    rw [if_neg (by simp [hm])]
    simp only [hr, ht, hds]
  · rintro ⟨item, hmem, hbad⟩
    have hnone : unwrapAll cursor = none := by
      cases hu : unwrapAll cursor with
      | none => rfl
      | some ds =>
        have hok := (unwrapAll_isSome_iff cursor).mp ⟨ds, hu⟩ item hmem
        simp [hbad] at hok
    unfold call
    rw [if_neg (by simp [hm])]
    simp only [hr, ht, hnone]

theorem c8_cursor_decode_witness :
    ((∀ item ∈ ([Except.error (DbErr.mk "corrupt")] : Cursor),
        item.isOk = true) →
      ∃ resp, call
          { parseJson := testParse, serializeDoc := testSerialize,
            find := fun _ _ _ => .ok [Except.error (DbErr.mk "corrupt")] }
          { method := "GET", path := "/c", queryPairs := [] } = .ok resp ∧
        resp.status = 200) ∧
    ((∃ item ∈ ([Except.error (DbErr.mk "corrupt")] : Cursor),
        item.isOk = false) →
      call
          { parseJson := testParse, serializeDoc := testSerialize,
            find := fun _ _ _ => .ok [Except.error (DbErr.mk "corrupt")] }
          { method := "GET", path := "/c", queryPairs := [] } = .panicked) :=
  c8_cursor_decode testParse testSerialize [Except.error (DbErr.mk "corrupt")]
    { method := "GET", path := "/c", queryPairs := [] } "c" rfl (by decide)
    ⟨(none, { limit := some 20, skip := none, sort := none }), rfl⟩

/-! ## C9: duplicate query parameters -/

/-- C9: the parameter map built by collecting the decoded key/value pairs
into a `HashMap` is single-valued and keeps, for every key, the value of
the last occurrence of that key in the query string. -/
theorem c9_last_occurrence_wins (pairs : List (String × String)) (k : String) :
    collectParams pairs k
      = (pairs.reverse.find? (fun kv => kv.1 == k)).map Prod.snd := by
  unfold collectParams
  rw [foldl_insert_lookup]
  simp

/-! ## C10: unrecognized parameters have no effect -/

/-- The four parameter keys the handler reads. -/
def relevantKeys : List String := ["limit", "skip", "query", "sort"]

theorem collectParams_filter_relevant (ps : List (String × String))
    (k : String) (hk : k ∈ relevantKeys) :
    collectParams ps k
      = collectParams (ps.filter (fun kv => relevantKeys.contains kv.1)) k := by
  unfold collectParams
  rw [foldl_insert_lookup, foldl_insert_lookup, ← List.filter_reverse,
    find?_filter_of_imp]
  intro kv hkv
  exact List.elem_eq_true_of_mem (eq_of_beq hkv ▸ hk)

theorem translateParams_congr (pj : String → Option Json)
    (params₁ params₂ : String → Option String)
    (h : ∀ k ∈ relevantKeys, params₁ k = params₂ k) :
    translateParams pj params₁ = translateParams pj params₂ := by
  have hl := h "limit" (by simp [relevantKeys])
  have hs := h "skip" (by simp [relevantKeys])
  have hso := h "sort" (by simp [relevantKeys])
  have hq := h "query" (by simp [relevantKeys])
  unfold translateParams
  rw [hl, hs, hso, hq]

/-- C10: two requests that agree on method and path and whose query strings
carry the same pairs with keys among limit/skip/query/sort (in the same
order) — in particular, two requests identical except that one carries
additional pairs with other keys — produce the same handler outcome under
the same environment. -/
theorem c10_unrecognized_params_no_effect (env : Env) (m p : String)
    (ps₁ ps₂ : List (String × String))
    (h : ps₁.filter (fun kv => relevantKeys.contains kv.1)
       = ps₂.filter (fun kv => relevantKeys.contains kv.1)) :
    call env { method := m, path := p, queryPairs := ps₁ }
      = call env { method := m, path := p, queryPairs := ps₂ } := by
  have ht : translateParams env.parseJson (collectParams ps₁)
      = translateParams env.parseJson (collectParams ps₂) := by
    apply translateParams_congr
    intro k hk
    rw [collectParams_filter_relevant ps₁ k hk,
      collectParams_filter_relevant ps₂ k hk, h]
  unfold call
  dsimp only
  rw [ht]

theorem c10_unrecognized_params_no_effect_witness :
    call envBasic
        { method := "GET", path := "/c", queryPairs := [("limit", "5")] }
      = call envBasic
          { method := "GET", path := "/c",
            queryPairs := [("limit", "5"), ("debug", "true")] } :=
  c10_unrecognized_params_no_effect envBasic "GET" "/c" [("limit", "5")]
    [("limit", "5"), ("debug", "true")] (by decide)
